import Mathlib

/-!
Shallow embedding of `ravdl/DLOps/layers.py`: neural-network layer adapters
that declare nodes in an external lazy computation graph.  Graph node
handles are opaque (`NodeHandle := Nat`); each declaration call is
recorded as a `CallRec` (operation name, positional node arguments,
keyword arguments).  Python method bodies are translated one-to-one;
Python runtime failures (AttributeError, UnboundLocalError,
ZeroDivisionError, failed assert) are modelled as `Option.none`.
-/

/-- Opaque handle to a declared node in the external operation graph. -/
abbrev NodeHandle : Type := Nat

/-- A keyword-argument value passed to a graph-declaration call
(`R.forward_pass_*` / `R.backward_pass_*`).  Strings, integers, shape
tuples, floats (modelled as rationals), node handles (possibly `None`)
and stringified dicts all occur in the source. -/
inductive ArgVal where
  | str (s : String)
  | nat (n : Nat)
  | natList (l : List Nat)
  | natPair (a b : Nat)
  | rat (q : Rat)
  | node (h : Option NodeHandle)
  | dict (d : List (String × String))
deriving DecidableEq, Repr

/-- Record of one graph-declaration call: the operation name, the
positional node arguments, and the keyword arguments in source order. -/
structure CallRec where
  op : String
  posArgs : List NodeHandle
  kwargs : List (String × ArgVal)
deriving DecidableEq, Repr

/-- Look up a keyword argument of a recorded graph-declaration call. -/
def CallRec.kwarg (c : CallRec) (k : String) : Option ArgVal :=
  (c.kwargs.find? (fun p => p.1 == k)).map (fun p => p.2)

/-- `np.prod` over a shape tuple (left fold with initial value 1). -/
def np_prod (l : List Nat) : Nat := l.foldl (fun a b => a * b) 1

/-- Modelled from the spec: `determine_padding` from
`ravdl/DLOps/utils/data_operations.py` is imported by `layers.py` but is
not part of this excerpt.  Per the spec, it maps
`(filter_shape, padding_policy)` to `(pad_height_pair, pad_width_pair)`:
for "same" the total padding per dimension is `filter_dim - 1`, split
before/after as floor/ceil; for "valid" the padding is zero.  An unknown
policy string is modelled as `none`. -/
def determine_padding (filter_shape : Nat × Nat) (padding : String) :
    Option ((Nat × Nat) × (Nat × Nat)) :=
  if padding = "valid" then
    some ((0, 0), (0, 0))
  else if padding = "same" then
    let fh := filter_shape.1
    let fw := filter_shape.2
    some (((fh - 1) / 2, (fh - 1) - (fh - 1) / 2),
          ((fw - 1) / 2, (fw - 1) - (fw - 1) / 2))
  else
    none

/-! ### Dense -/

/-- State of a `Dense` layer instance (fields of `self` that its methods
read or write). -/
structure DenseState where
  forward_pass : Option NodeHandle
  backward_pass : Option NodeHandle
  n_units : Nat
  layer_input : Option NodeHandle
  input_shape : List Nat
  trainable : Bool
  optimizer : List (String × String)
deriving DecidableEq, Repr

/-- `Dense.initialize`: shapes of the shadow weight arrays.
`np_limit = 1 / math.sqrt(self.input_shape[0])` runs first, so
`input_shape[0] = 0` raises ZeroDivisionError before `np_W` is created;
`input_shape[0]` on an empty shape is an IndexError.  Both failures are
modelled as `none`.  Otherwise
`np_W = np.random.uniform(-limit, limit, (input_shape[0], n_units))` and
`np_w0 = np.zeros((1, n_units))`; returns `(W_shape, w0_shape)`. -/
def dense_init_shapes (input_shape : List Nat) (n_units : Nat) :
    Option (List Nat × List Nat) :=
  match input_shape with
  | [] => none
  | c :: _ => if c = 0 then none else some ([c, n_units], [1, n_units])

/-- `Dense.parameters`: `np.prod(np_W.shape) + np.prod(np_w0.shape)`. -/
def dense_parameters (wShape w0Shape : List Nat) : Nat :=
  np_prod wShape + np_prod w0Shape

/-- `Dense.output_shape`: `(n_units,)`. -/
def dense_output_shape (s : DenseState) : List Nat := [s.n_units]

/-- `Dense.output_shape` as a method call: result plus post-state (the
method body assigns no attribute of `self`). -/
def dense_output_shape_call (s : DenseState) : List Nat × DenseState :=
  (dense_output_shape s, s)

/-- `Dense._forward_pass`: stores the input, declares
`R.forward_pass_dense(X, n_units=..., input_shape=..., data=self.backward_pass,
input_layer=input_layer)` and caches the fresh handle.  The `training`
parameter exists in the Python signature but is never used.  Returns
(post-state, recorded call, returned handle). -/
def dense_forward_pass (s : DenseState) (X : NodeHandle) (input_layer : String)
    (training : Bool) (fresh : NodeHandle) : DenseState × CallRec × NodeHandle :=
  let _ := training
  let c : CallRec :=
    { op := "forward_pass_dense"
      posArgs := [X]
      kwargs := [("n_units", ArgVal.nat s.n_units),
                 ("input_shape", ArgVal.natList s.input_shape),
                 ("data", ArgVal.node s.backward_pass),
                 ("input_layer", ArgVal.str input_layer)] }
  ({ s with layer_input := some X, forward_pass := some fresh }, c, fresh)

/-- `Dense._backward_pass`: if `self.trainable`, declares
`R.backward_pass_dense(...)` and overwrites `self.backward_pass`;
otherwise nothing is declared.  Either way returns `self.backward_pass`.
Returns (post-state, list of declared calls, returned handle). -/
def dense_backward_pass (s : DenseState) (loss_grad : NodeHandle)
    (input_layer : String) (fresh : NodeHandle) :
    DenseState × List CallRec × Option NodeHandle :=
  if s.trainable then
    let c : CallRec :=
      { op := "backward_pass_dense"
        posArgs := [loss_grad]
        kwargs := [("layer_input", ArgVal.node s.layer_input),
                   ("optimizer", ArgVal.dict s.optimizer),
                   ("data", ArgVal.node s.forward_pass),
                   ("input_layer", ArgVal.str input_layer)] }
    ({ s with backward_pass := some fresh }, [c], some fresh)
  else
    (s, [], s.backward_pass)

/-- `Dense.persist_weights`: requests `persist_op` on the cached forward
and backward handles with names `"<layer_name>_forward_pass"` and
`"<layer_name>_backward_pass"`.  If either handle is `None` the Python
call fails (AttributeError on `None`), modelled as `none`. -/
def dense_persist_weights (layer_name : String)
    (fp bp : Option NodeHandle) : Option (List (NodeHandle × String)) :=
  match fp, bp with
  | some f, some b =>
      some [(f, layer_name ++ "_forward_pass"), (b, layer_name ++ "_backward_pass")]
  | _, _ => none

/-! ### BatchNormalization -/

/-- State of a `BatchNormalization` layer instance. -/
structure BatchNormState where
  momentum : Rat
  eps : Rat
  trainable : Bool
  forward_pass : Option NodeHandle
  backward_pass : Option NodeHandle
  input_shape : List Nat
  optimizer : List (String × String)
deriving DecidableEq, Repr

/-- `BatchNormalization.initialize`: shape of the shadow `np_gamma` /
`np_beta` arrays: `(1, input_shape[0])` when `len(input_shape) == 1`,
else `(1, input_shape[0], 1, 1)`; `input_shape[0]` on an empty shape is
a Python error, modelled as `none`.  Gamma and beta share the shape, so
one shape is returned. -/
def batchnorm_init_shape (input_shape : List Nat) : Option (List Nat) :=
  match input_shape with
  | [] => none
  | [c] => some [1, c]
  | c :: _ :: _ => some [1, c, 1, 1]

/-- `BatchNormalization.parameters`: element count of gamma plus beta. -/
def batchnorm_parameters (gammaShape betaShape : List Nat) : Nat :=
  np_prod gammaShape + np_prod betaShape

/-- `BatchNormalization.output_shape`: `input_shape`. -/
def batchnorm_output_shape (s : BatchNormState) : List Nat := s.input_shape

/-- `BatchNormalization.output_shape` as a method call (no mutation). -/
def batchnorm_output_shape_call (s : BatchNormState) : List Nat × BatchNormState :=
  (batchnorm_output_shape s, s)

/-- `BatchNormalization._forward_pass`: stringifies the `training`
argument and `self.trainable` to `"True"`/`"False"`, declares
`R.forward_pass_batchnorm(...)` and caches the fresh handle. -/
def batchnorm_forward_pass (s : BatchNormState) (X : NodeHandle)
    (input_layer : String) (training : Bool) (fresh : NodeHandle) :
    BatchNormState × CallRec × NodeHandle :=
  let trainingStr := if training then "True" else "False"
  let trainableStr := if s.trainable then "True" else "False"
  let c : CallRec :=
    { op := "forward_pass_batchnorm"
      posArgs := [X]
      kwargs := [("input_shape", ArgVal.natList s.input_shape),
                 ("momentum", ArgVal.rat s.momentum),
                 ("eps", ArgVal.rat s.eps),
                 ("training", ArgVal.str trainingStr),
                 ("trainable", ArgVal.str trainableStr),
                 ("data", ArgVal.node s.backward_pass),
                 ("input_layer", ArgVal.str input_layer)] }
  ({ s with forward_pass := some fresh }, c, fresh)

/-- `BatchNormalization._backward_pass`: the local variable `trainable`
is assigned only under `if self.trainable:`, yet is read unconditionally
in the `R.backward_pass_batchnorm(...)` call, so with
`self.trainable == False` the method raises UnboundLocalError (modelled
as `none`) before declaring anything.  With `self.trainable == True` it
declares the node and caches the fresh handle. -/
def batchnorm_backward_pass (s : BatchNormState) (accum_grad : NodeHandle)
    (input_layer : String) (fresh : NodeHandle) :
    Option (BatchNormState × CallRec × NodeHandle) :=
  if s.trainable then
    let c : CallRec :=
      { op := "backward_pass_batchnorm"
        posArgs := [accum_grad]
        kwargs := [("input_shape", ArgVal.natList s.input_shape),
                   ("optimizer", ArgVal.dict s.optimizer),
                   ("trainable", ArgVal.str "True"),
                   ("data", ArgVal.node s.forward_pass),
                   ("input_layer", ArgVal.str input_layer)] }
    some ({ s with backward_pass := some fresh }, c, fresh)
  else
    none

/-- `BatchNormalization.persist_weights`: same body as Dense. -/
def batchnorm_persist_weights (layer_name : String)
    (fp bp : Option NodeHandle) : Option (List (NodeHandle × String)) :=
  match fp, bp with
  | some f, some b =>
      some [(f, layer_name ++ "_forward_pass"), (b, layer_name ++ "_backward_pass")]
  | _, _ => none

/-! ### Dropout -/

/-- State of a `Dropout` layer instance. -/
structure DropoutState where
  p : Rat
  input_shape : List Nat
  trainable : Bool
  forward_pass : Option NodeHandle
  backward_pass : Option NodeHandle
deriving DecidableEq, Repr

/-- `Dropout._forward_pass`: stringifies the `training` argument and
declares `R.forward_pass_dropout(X, p=self.p, training=training,
input_layer=input_layer)`. -/
def dropout_forward_pass (s : DropoutState) (X : NodeHandle)
    (input_layer : String) (training : Bool) (fresh : NodeHandle) :
    DropoutState × CallRec × NodeHandle :=
  let trainingStr := if training then "True" else "False"
  let c : CallRec :=
    { op := "forward_pass_dropout"
      posArgs := [X]
      kwargs := [("p", ArgVal.rat s.p),
                 ("training", ArgVal.str trainingStr),
                 ("input_layer", ArgVal.str input_layer)] }
  ({ s with forward_pass := some fresh }, c, fresh)

/-- `Dropout.output_shape`: `input_shape`. -/
def dropout_output_shape (s : DropoutState) : List Nat := s.input_shape

/-- `Dropout.output_shape` as a method call (no mutation). -/
def dropout_output_shape_call (s : DropoutState) : List Nat × DropoutState :=
  (dropout_output_shape s, s)

/-- `Dropout.persist_weights`: the body is `pass`; no persistence is
requested. -/
def dropout_persist_weights (layer_name : String)
    (fp bp : Option NodeHandle) : Option (List (NodeHandle × String)) :=
  let _ := layer_name
  let _ := fp
  let _ := bp
  some []

/-! ### Activation -/

/-- State of an `Activation` layer instance. -/
structure ActivationState where
  activation_name : String
  input_shape : List Nat
  trainable : Bool
  forward_pass : Option NodeHandle
  backward_pass : Option NodeHandle
deriving DecidableEq, Repr

/-- `Activation._forward_pass`: declares
`R.forward_pass_activation(X, act_data=str({'name': self.activation_name}),
input_layer=input_layer)`; the stringified dict is modelled as
`ArgVal.dict`.  The `training` parameter is never used. -/
def activation_forward_pass (s : ActivationState) (X : NodeHandle)
    (input_layer : String) (training : Bool) (fresh : NodeHandle) :
    ActivationState × CallRec × NodeHandle :=
  let _ := training
  let c : CallRec :=
    { op := "forward_pass_activation"
      posArgs := [X]
      kwargs := [("act_data", ArgVal.dict [("name", s.activation_name)]),
                 ("input_layer", ArgVal.str input_layer)] }
  ({ s with forward_pass := some fresh }, c, fresh)

/-- `Activation.output_shape`: `input_shape`. -/
def activation_output_shape (s : ActivationState) : List Nat := s.input_shape

/-- `Activation.output_shape` as a method call (no mutation). -/
def activation_output_shape_call (s : ActivationState) :
    List Nat × ActivationState :=
  (activation_output_shape s, s)

/-- `Activation.persist_weights`: the body is `pass`. -/
def activation_persist_weights (layer_name : String)
    (fp bp : Option NodeHandle) : Option (List (NodeHandle × String)) :=
  let _ := layer_name
  let _ := fp
  let _ := bp
  some []

/-! ### Conv2D -/

/-- State of a `Conv2D` layer instance.  `input_shape` is the
`(channels, height, width)` triple that `output_shape` unpacks. -/
structure Conv2DState where
  n_filters : Nat
  filter_shape : Nat × Nat
  padding : String
  stride : Nat
  input_shape : Nat × Nat × Nat
  trainable : Bool
  layer_input : Option NodeHandle
  forward_pass : Option NodeHandle
  backward_pass : Option NodeHandle
  optimizer : List (String × String)
deriving DecidableEq, Repr

/-- `Conv2D.initialize`: shapes of the shadow weight arrays:
`np_W` is `(n_filters, channels, filter_height, filter_width)` and
`np_w0` is `(n_filters, 1)`.  Returns `(W_shape, w0_shape)`. -/
def conv2d_init_shapes (s : Conv2DState) : List Nat × List Nat :=
  ([s.n_filters, s.input_shape.1, s.filter_shape.1, s.filter_shape.2],
   [s.n_filters, 1])

/-- `Conv2D.output_shape`:
`output_height = (height + np.sum(pad_h) - filter_shape[0]) / stride + 1`
(Python true division) then `int(...)`, which truncates toward zero; the
truncation of the exact rational `n / stride + 1 = (n + stride) / stride`
is `Int.tdiv (n + stride) stride` for positive stride (`Int.tdiv` is
T-division).  A stride of 0 is a Python ZeroDivisionError and an unknown
padding policy fails in `determine_padding`; both are modelled as
`none`. -/
def conv2d_output_shape (s : Conv2DState) : Option (Nat × Int × Int) :=
  (determine_padding s.filter_shape s.padding).bind fun pads =>
    if s.stride = 0 then none
    else
      let height := s.input_shape.2.1
      let width := s.input_shape.2.2
      let numH : Int := (height : Int) + (pads.1.1 + pads.1.2 : Nat) - s.filter_shape.1
      let numW : Int := (width : Int) + (pads.2.1 + pads.2.2 : Nat) - s.filter_shape.2
      some (s.n_filters,
            Int.tdiv (numH + s.stride) s.stride,
            Int.tdiv (numW + s.stride) s.stride)

/-- `Conv2D.output_shape` as a method call (no mutation). -/
def conv2d_output_shape_call (s : Conv2DState) :
    Option (Nat × Int × Int) × Conv2DState :=
  (conv2d_output_shape s, s)

/-- `Conv2D.persist_weights`: same body as Dense. -/
def conv2d_persist_weights (layer_name : String)
    (fp bp : Option NodeHandle) : Option (List (NodeHandle × String)) :=
  match fp, bp with
  | some f, some b =>
      some [(f, layer_name ++ "_forward_pass"), (b, layer_name ++ "_backward_pass")]
  | _, _ => none

/-! ### Flatten -/

/-- State of a `Flatten` layer instance. -/
structure FlattenState where
  input_shape : List Nat
  trainable : Bool
  forward_pass : Option NodeHandle
  backward_pass : Option NodeHandle
deriving DecidableEq, Repr

/-- `Flatten.output_shape`: `(int(np.prod(self.input_shape)),)`. -/
def flatten_output_shape (s : FlattenState) : List Nat :=
  [np_prod s.input_shape]

/-- `Flatten.output_shape` as a method call (no mutation). -/
def flatten_output_shape_call (s : FlattenState) : List Nat × FlattenState :=
  (flatten_output_shape s, s)

/-- `Flatten.persist_weights`: the body is `pass`. -/
def flatten_persist_weights (layer_name : String)
    (fp bp : Option NodeHandle) : Option (List (NodeHandle × String)) :=
  let _ := layer_name
  let _ := fp
  let _ := bp
  some []

/-! ### MaxPooling2D -/

/-- State of a `MaxPooling2D` layer instance.  `input_shape` is the
`(channels, height, width)` triple that `output_shape` unpacks. -/
structure MaxPool2DState where
  pool_shape : Nat × Nat
  stride : Nat
  padding : String
  trainable : Bool
  input_shape : Nat × Nat × Nat
  forward_pass : Option NodeHandle
  backward_pass : Option NodeHandle
deriving DecidableEq, Repr

/-- `MaxPooling2D.output_shape`:
`out_height = (height - pool_shape[0]) / stride + 1` and likewise for
width, followed by `assert out_height % 1 == 0` and
`assert out_width % 1 == 0`; a fractional result (stride does not divide
`height - pool_shape[0]` or `width - pool_shape[1]` over the integers)
fails the assert, and stride 0 is a ZeroDivisionError, both modelled as
`none`.  On success returns `(channels, int(out_height), int(out_width))`. -/
def maxpool2d_output_shape (s : MaxPool2DState) : Option (Nat × Int × Int) :=
  if s.stride = 0 then none
  else
    let channels := s.input_shape.1
    let dh : Int := (s.input_shape.2.1 : Int) - s.pool_shape.1
    let dw : Int := (s.input_shape.2.2 : Int) - s.pool_shape.2
    if (s.stride : Int) ∣ dh ∧ (s.stride : Int) ∣ dw then
      some (channels, dh / s.stride + 1, dw / s.stride + 1)
    else
      none

/-- `MaxPooling2D.output_shape` as a method call (no mutation). -/
def maxpool2d_output_shape_call (s : MaxPool2DState) :
    Option (Nat × Int × Int) × MaxPool2DState :=
  (maxpool2d_output_shape s, s)

/-- `MaxPooling2D` defines no `persist_weights` method and the `Layer`
base class defines none either, so calling `persist_weights` on a
`MaxPooling2D` raises AttributeError, modelled as `none`. -/
def maxpool2d_persist_weights (layer_name : String)
    (fp bp : Option NodeHandle) : Option (List (NodeHandle × String)) :=
  let _ := layer_name
  let _ := fp
  let _ := bp
  none

/-! ### Helper lemmas -/

/-- `np_prod` agrees with `List.prod`. -/
theorem np_prod_eq_prod (l : List Nat) : np_prod l = l.prod := by
  simp [np_prod, List.prod_eq_foldl]

/-- Truncating division `int(n/s + 1)` (Python `int` truncates toward
zero, and `n/s + 1 = (n+s)/s`) agrees with `floor(n/s) + 1` whenever the
numerator `n` is nonnegative. -/
theorem tdiv_shift_eq_fdiv_add_one (n s : Int) (hn : 0 ≤ n) (hs : 0 < s) :
    Int.tdiv (n + s) s = Int.fdiv n s + 1 := by
  rw [Int.tdiv_eq_ediv (show (0:Int) ≤ n + s by omega) (show (0:Int) ≤ s by omega),
      Int.fdiv_eq_ediv n (show (0:Int) ≤ s by omega)]
  have h := Int.add_mul_ediv_right n 1 (show s ≠ 0 by omega)
  rw [one_mul] at h
  exact h

/-- The total padding per spatial dimension as the spec's formula states
it: `filter_dim - 1` under "same" and `0` under "valid". -/
def total_pad (filter_dim : Nat) (padding : String) : Nat :=
  if padding = "same" then filter_dim - 1 else 0

/-- `conv2d_output_shape` written with the floor-division formula, valid
when the padding resolver succeeds, the stride is positive and each
padded spatial dimension is at least the filter dimension. -/
theorem conv2d_output_shape_eq (s : Conv2DState) (p1 p2 q1 q2 : Nat)
    (hdp : determine_padding s.filter_shape s.padding = some ((p1, p2), (q1, q2)))
    (hs : 1 ≤ s.stride)
    (hfh : s.filter_shape.1 ≤ s.input_shape.2.1 + (p1 + p2))
    (hfw : s.filter_shape.2 ≤ s.input_shape.2.2 + (q1 + q2)) :
    conv2d_output_shape s =
      some (s.n_filters,
        Int.fdiv ((s.input_shape.2.1 : Int) + (p1 + p2 : Nat) - s.filter_shape.1) s.stride + 1,
        Int.fdiv ((s.input_shape.2.2 : Int) + (q1 + q2 : Nat) - s.filter_shape.2) s.stride + 1) := by
  unfold conv2d_output_shape
  rw [hdp, Option.some_bind]
  rw [if_neg (show ¬ s.stride = 0 by omega)]
  have eh := tdiv_shift_eq_fdiv_add_one
    ((s.input_shape.2.1 : Int) + (p1 + p2 : Nat) - s.filter_shape.1) s.stride
    (by push_cast; omega) (by omega)
  have ew := tdiv_shift_eq_fdiv_add_one
    ((s.input_shape.2.2 : Int) + (q1 + q2 : Nat) - s.filter_shape.2) s.stride
    (by push_cast; omega) (by omega)
  rw [Option.some.injEq, Prod.mk.injEq, Prod.mk.injEq]
  exact ⟨rfl, eh, ew⟩

/-! ### Claims -/

/-- Claim C1, counterexample: with `input_shape = (3, 1, 1)`,
`filter_shape = (4, 4)`, padding "valid" and stride 2, the code's
truncation toward zero yields output spatial dimension 0, while the
claimed formula `floor((height + total_pad - fh)/s) + 1` yields -1. -/
theorem c1_counterexample :
    conv2d_output_shape
      { n_filters := 16, filter_shape := (4, 4), padding := "valid", stride := 2,
        input_shape := (3, 1, 1), trainable := true, layer_input := none,
        forward_pass := none, backward_pass := none, optimizer := [] }
      = some (16, 0, 0)
    ∧ Int.fdiv ((1 : Int) + total_pad 4 "valid" - 4) 2 + 1 = -1 := by
  constructor
  · decide
  · decide

/-- Claim C1 (amended): for every Conv2D layer with
`input_shape = (channels, height, width)`, `filter_shape = (fh, fw)`,
stride at least 1, padding "same" or "valid", and each spatial dimension
plus its total padding at least the filter dimension, `output_shape()`
returns `(n_filters, floor((height + total_pad_h - fh)/s) + 1,
floor((width + total_pad_w - fw)/s) + 1)` with total padding
`filter_dim - 1` for "same" and `0` for "valid". -/
theorem c1_conv2d_output_shape_formula (s : Conv2DState)
    (hs : 1 ≤ s.stride)
    (hpad : s.padding = "same" ∨ s.padding = "valid")
    (hfit_h : s.filter_shape.1 ≤ s.input_shape.2.1 + total_pad s.filter_shape.1 s.padding)
    (hfit_w : s.filter_shape.2 ≤ s.input_shape.2.2 + total_pad s.filter_shape.2 s.padding) :
    conv2d_output_shape s =
      some (s.n_filters,
        Int.fdiv ((s.input_shape.2.1 : Int)
            + total_pad s.filter_shape.1 s.padding - s.filter_shape.1) s.stride + 1,
        Int.fdiv ((s.input_shape.2.2 : Int)
            + total_pad s.filter_shape.2 s.padding - s.filter_shape.2) s.stride + 1) := by
  rcases hpad with hp | hp
  · have htp_h : total_pad s.filter_shape.1 s.padding = s.filter_shape.1 - 1 := by
      rw [hp]; rfl
    have htp_w : total_pad s.filter_shape.2 s.padding = s.filter_shape.2 - 1 := by
      rw [hp]; rfl
    have hdp : determine_padding s.filter_shape s.padding =
        some (((s.filter_shape.1 - 1) / 2,
               (s.filter_shape.1 - 1) - (s.filter_shape.1 - 1) / 2),
              ((s.filter_shape.2 - 1) / 2,
               (s.filter_shape.2 - 1) - (s.filter_shape.2 - 1) / 2)) := by
      rw [hp]; rfl
    have hsum_h : (s.filter_shape.1 - 1) / 2
        + ((s.filter_shape.1 - 1) - (s.filter_shape.1 - 1) / 2) = s.filter_shape.1 - 1 := by
      omega
    have hsum_w : (s.filter_shape.2 - 1) / 2
        + ((s.filter_shape.2 - 1) - (s.filter_shape.2 - 1) / 2) = s.filter_shape.2 - 1 := by
      omega
    have h := conv2d_output_shape_eq s _ _ _ _ hdp hs
      (by rw [hsum_h]; rw [htp_h] at hfit_h; exact hfit_h)
      (by rw [hsum_w]; rw [htp_w] at hfit_w; exact hfit_w)
    rw [h, hsum_h, hsum_w, htp_h, htp_w]
  · have htp_h : total_pad s.filter_shape.1 s.padding = 0 := by
      rw [hp]; rfl
    have htp_w : total_pad s.filter_shape.2 s.padding = 0 := by
      rw [hp]; rfl
    have hdp : determine_padding s.filter_shape s.padding = some ((0, 0), (0, 0)) := by
      rw [hp]; rfl
    have h := conv2d_output_shape_eq s 0 0 0 0 hdp hs
      (by rw [htp_h] at hfit_h; simpa using hfit_h)
      (by rw [htp_w] at hfit_w; simpa using hfit_w)
    rw [h, htp_h, htp_w]

/-- Claim C1, witness: `Conv2D(n_filters=16, filter_shape=(3,3),
input_shape=(3,32,32), padding="same", stride=1).output_shape()` is
`(16, 32, 32)`. -/
theorem c1_witness :
    conv2d_output_shape
      { n_filters := 16, filter_shape := (3, 3), padding := "same", stride := 1,
        input_shape := (3, 32, 32), trainable := true, layer_input := none,
        forward_pass := none, backward_pass := none, optimizer := [] }
      = some (16, 32, 32) := by
  have h := c1_conv2d_output_shape_formula
    { n_filters := 16, filter_shape := (3, 3), padding := "same", stride := 1,
      input_shape := (3, 32, 32), trainable := true, layer_input := none,
      forward_pass := none, backward_pass := none, optimizer := [] }
    (by decide) (Or.inl rfl) (by decide) (by decide)
  exact h.trans (by decide)

/-- Claim C2: `MaxPooling2D.output_shape()` returns
`(channels, (height - ph)/s + 1, (width - pw)/s + 1)` exactly when the
stride is nonzero and divides both `height - ph` and `width - pw` (the
divisions yield integers); otherwise the call fails (assert failure, or
ZeroDivisionError when the stride is 0), modelled as `none`. -/
theorem c2_maxpool2d_output_shape (s : MaxPool2DState) :
    (s.stride ≠ 0
        ∧ (s.stride : Int) ∣ ((s.input_shape.2.1 : Int) - s.pool_shape.1)
        ∧ (s.stride : Int) ∣ ((s.input_shape.2.2 : Int) - s.pool_shape.2) →
      maxpool2d_output_shape s =
        some (s.input_shape.1,
          ((s.input_shape.2.1 : Int) - s.pool_shape.1) / s.stride + 1,
          ((s.input_shape.2.2 : Int) - s.pool_shape.2) / s.stride + 1))
    ∧ (¬(s.stride ≠ 0
        ∧ (s.stride : Int) ∣ ((s.input_shape.2.1 : Int) - s.pool_shape.1)
        ∧ (s.stride : Int) ∣ ((s.input_shape.2.2 : Int) - s.pool_shape.2)) →
      maxpool2d_output_shape s = none) := by
  constructor
  · rintro ⟨h0, hd1, hd2⟩
    unfold maxpool2d_output_shape
    rw [if_neg h0]
    rw [if_pos ⟨hd1, hd2⟩]
  · intro hn
    unfold maxpool2d_output_shape
    by_cases h0 : s.stride = 0
    · rw [if_pos h0]
    · rw [if_neg h0, if_neg (fun hd => hn ⟨h0, hd.1, hd.2⟩)]

/-- Claim C2, witness: `MaxPooling2D(pool_shape=(2,2), stride=2)` maps
input `(3, 32, 32)` to `(3, 16, 16)` and rejects input `(3, 33, 33)`. -/
theorem c2_witness :
    maxpool2d_output_shape
      { pool_shape := (2, 2), stride := 2, padding := "same", trainable := true,
        input_shape := (3, 32, 32), forward_pass := none, backward_pass := none }
      = some (3, 16, 16)
    ∧ maxpool2d_output_shape
      { pool_shape := (2, 2), stride := 2, padding := "same", trainable := true,
        input_shape := (3, 33, 33), forward_pass := none, backward_pass := none }
      = none := by
  constructor
  · have h := (c2_maxpool2d_output_shape
      { pool_shape := (2, 2), stride := 2, padding := "same", trainable := true,
        input_shape := (3, 32, 32), forward_pass := none, backward_pass := none }).1
      ⟨by decide, by decide, by decide⟩
    exact h.trans (by decide)
  · exact (c2_maxpool2d_output_shape
      { pool_shape := (2, 2), stride := 2, padding := "same", trainable := true,
        input_shape := (3, 33, 33), forward_pass := none, backward_pass := none }).2
      (by decide)

/-- Claim C3: for a Dense layer with a non-empty `input_shape` headed by
a nonzero `c` (so that `initialize` completes: with `input_shape[0] = 0`
it raises ZeroDivisionError at `1 / math.sqrt(0)` before creating the
arrays) and `n_units = n`, `initialize` gives `np_W` shape `(c, n)` and
`np_w0` shape `(1, n)`, `parameters()` is `c*n + n`, and
`output_shape()` is `(n_units,)`. -/
theorem c3_dense_shapes_params (c : Nat) (rest : List Nat) (n : Nat)
    (s : DenseState) (hc : c ≠ 0) :
    dense_init_shapes (c :: rest) n = some ([c, n], [1, n])
    ∧ dense_parameters [c, n] [1, n] = c * n + n
    ∧ dense_output_shape s = [s.n_units] := by
  refine ⟨?_, ?_, rfl⟩
  · simp [dense_init_shapes, hc]
  · simp [dense_parameters, np_prod, List.foldl]

/-- Claim C3, witness: a Dense layer with `input_shape = (3,)` and
`n_units = 4` gets `np_W` shape `(3, 4)`, `np_w0` shape `(1, 4)` and
16 parameters. -/
theorem c3_witness :
    dense_init_shapes [3] 4 = some ([3, 4], [1, 4])
    ∧ dense_parameters [3, 4] [1, 4] = 3 * 4 + 4 :=
  ⟨(c3_dense_shapes_params 3 [] 4
      { forward_pass := none, backward_pass := none, n_units := 4,
        layer_input := none, input_shape := [3], trainable := true,
        optimizer := [] } (by decide)).1,
   (c3_dense_shapes_params 3 [] 4
      { forward_pass := none, backward_pass := none, n_units := 4,
        layer_input := none, input_shape := [3], trainable := true,
        optimizer := [] } (by decide)).2.1⟩

/-- Claim C4: `BatchNormalization.initialize` produces gamma/beta shadow
parameters of shape `(1, C)` when `input_shape` has length 1 and
`(1, C, 1, 1)` otherwise, with `C` the first entry of `input_shape`. -/
theorem c4_batchnorm_init_shape (c x : Nat) (rest : List Nat) :
    batchnorm_init_shape [c] = some [1, c]
    ∧ batchnorm_init_shape (c :: x :: rest) = some [1, c, 1, 1] :=
  ⟨rfl, rfl⟩

/-- Claim C5: `Flatten.output_shape()` is the one-element tuple holding
the product of all entries of `input_shape`; in particular
`input_shape = (3, 4, 4)` yields `(48,)`. -/
theorem c5_flatten_output_shape (s : FlattenState) :
    flatten_output_shape s = [s.input_shape.prod]
    ∧ flatten_output_shape
        { input_shape := [3, 4, 4], trainable := true,
          forward_pass := none, backward_pass := none } = [48] := by
  refine ⟨?_, rfl⟩
  simp [flatten_output_shape, np_prod_eq_prod]

/-- Claim C6: `Dense._backward_pass` declares a backward graph node if
and only if `trainable` is true; when `trainable` is false no node is
declared, the whole layer state (including the stored `backward_pass`
field) is unchanged, and the old `backward_pass` is returned. -/
theorem c6_dense_backward_frame (s : DenseState) (loss_grad : NodeHandle)
    (input_layer : String) (fresh : NodeHandle) :
    ((dense_backward_pass s loss_grad input_layer fresh).2.1 ≠ [] ↔ s.trainable = true)
    ∧ (s.trainable = false →
        (dense_backward_pass s loss_grad input_layer fresh).1 = s
        ∧ (dense_backward_pass s loss_grad input_layer fresh).2.2 = s.backward_pass) := by
  cases h : s.trainable
  · simp [dense_backward_pass, h]
  · simp [dense_backward_pass, h]

/-- Claim C6, witness: a concrete non-trainable Dense layer is left
unchanged by `_backward_pass`. -/
theorem c6_witness :
    (dense_backward_pass
      { forward_pass := some 1, backward_pass := some 2, n_units := 4,
        layer_input := some 0, input_shape := [3], trainable := false,
        optimizer := [] } 5 "False" 9).1
      = { forward_pass := some 1, backward_pass := some 2, n_units := 4,
          layer_input := some 0, input_shape := [3], trainable := false,
          optimizer := [] } :=
  ((c6_dense_backward_frame
    { forward_pass := some 1, backward_pass := some 2, n_units := 4,
      layer_input := some 0, input_shape := [3], trainable := false,
      optimizer := [] } 5 "False" 9).2 rfl).1

/-- Claim C7, counterexample: `MaxPooling2D` defines no
`persist_weights` method (and inherits none from `Layer`), so calling it
raises AttributeError (modelled `none`) rather than being a no-op
(modelled `some []`, as for Dropout). -/
theorem c7_counterexample :
    maxpool2d_persist_weights "MaxPooling2D" (some 1) (some 2) = none
    ∧ (none : Option (List (NodeHandle × String))) ≠ some [] := by
  exact ⟨rfl, by decide⟩

/-- Claim C7 (amended): `persist_weights` requests `persist_op` on the
cached forward and backward handles with names
`"<layer_name>_forward_pass"` / `"<layer_name>_backward_pass"` for the
layers with trainable state (Dense, BatchNormalization, Conv2D), and is
a no-op for Dropout, Activation and Flatten; `MaxPooling2D` defines no
`persist_weights` method at all, so calling it fails with
AttributeError instead of being a no-op. -/
theorem c7_persist_weights (name : String) (f b : NodeHandle)
    (fp bp : Option NodeHandle) :
    dense_persist_weights name (some f) (some b)
      = some [(f, name ++ "_forward_pass"), (b, name ++ "_backward_pass")]
    ∧ batchnorm_persist_weights name (some f) (some b)
      = some [(f, name ++ "_forward_pass"), (b, name ++ "_backward_pass")]
    ∧ conv2d_persist_weights name (some f) (some b)
      = some [(f, name ++ "_forward_pass"), (b, name ++ "_backward_pass")]
    ∧ dropout_persist_weights name fp bp = some []
    ∧ activation_persist_weights name fp bp = some []
    ∧ flatten_persist_weights name fp bp = some []
    ∧ maxpool2d_persist_weights name fp bp = none :=
  ⟨rfl, rfl, rfl, rfl, rfl, rfl, rfl⟩

/-- Claim C8, counterexample: `Dense._forward_pass` passes neither a
`training` nor a `trainable` keyword to its graph-declaration call, so
the flags are not passed as `"True"`/`"False"` strings there even with
`training=True`. -/
theorem c8_counterexample :
    ((dense_forward_pass
      { forward_pass := none, backward_pass := none, n_units := 4,
        layer_input := none, input_shape := [3], trainable := true,
        optimizer := [] } 7 "False" true 9).2.1).kwarg "training" = none
    ∧ ((dense_forward_pass
      { forward_pass := none, backward_pass := none, n_units := 4,
        layer_input := none, input_shape := [3], trainable := true,
        optimizer := [] } 7 "False" true 9).2.1).kwarg "trainable" = none
    ∧ (none : Option ArgVal) ≠ some (ArgVal.str "True") := by
  refine ⟨by decide, by decide, by decide⟩

/-- Claim C8 (amended): where a boolean flag is forwarded, it is passed
as the literal string `"True"` exactly when the flag is true:
`BatchNormalization._forward_pass` passes `training` and `trainable`,
and `Dropout._forward_pass` passes `training`; `Dense._forward_pass`
passes no `training` or `trainable` keyword at all. -/
theorem c8_forward_flags (sbn : BatchNormState) (sdo : DropoutState)
    (sd : DenseState) (X : NodeHandle) (il : String) (training : Bool)
    (fresh : NodeHandle) :
    ((batchnorm_forward_pass sbn X il training fresh).2.1).kwarg "training"
        = some (ArgVal.str (if training then "True" else "False"))
    ∧ ((batchnorm_forward_pass sbn X il training fresh).2.1).kwarg "trainable"
        = some (ArgVal.str (if sbn.trainable then "True" else "False"))
    ∧ ((dropout_forward_pass sdo X il training fresh).2.1).kwarg "training"
        = some (ArgVal.str (if training then "True" else "False"))
    ∧ ((dense_forward_pass sd X il training fresh).2.1).kwarg "training" = none
    ∧ ((dense_forward_pass sd X il training fresh).2.1).kwarg "trainable" = none := by
  refine ⟨?_, ?_, ?_, ?_, ?_⟩ <;>
    simp [batchnorm_forward_pass, dropout_forward_pass, dense_forward_pass,
      CallRec.kwarg, List.find?]

/-- Claim C9: every layer's `output_shape()` mutates no layer state, so
calling it repeatedly with unchanged configuration returns identical
results: the post-state equals the pre-state and a second call returns
the same value as the first, for all seven layer classes. -/
theorem c9_output_shape_idempotent (s1 : DenseState) (s2 : BatchNormState)
    (s3 : DropoutState) (s4 : ActivationState) (s5 : Conv2DState)
    (s6 : FlattenState) (s7 : MaxPool2DState) :
    ((dense_output_shape_call s1).2 = s1
      ∧ (dense_output_shape_call ((dense_output_shape_call s1).2)).1
          = (dense_output_shape_call s1).1)
    ∧ ((batchnorm_output_shape_call s2).2 = s2
      ∧ (batchnorm_output_shape_call ((batchnorm_output_shape_call s2).2)).1
          = (batchnorm_output_shape_call s2).1)
    ∧ ((dropout_output_shape_call s3).2 = s3
      ∧ (dropout_output_shape_call ((dropout_output_shape_call s3).2)).1
          = (dropout_output_shape_call s3).1)
    ∧ ((activation_output_shape_call s4).2 = s4
      ∧ (activation_output_shape_call ((activation_output_shape_call s4).2)).1
          = (activation_output_shape_call s4).1)
    ∧ ((conv2d_output_shape_call s5).2 = s5
      ∧ (conv2d_output_shape_call ((conv2d_output_shape_call s5).2)).1
          = (conv2d_output_shape_call s5).1)
    ∧ ((flatten_output_shape_call s6).2 = s6
      ∧ (flatten_output_shape_call ((flatten_output_shape_call s6).2)).1
          = (flatten_output_shape_call s6).1)
    ∧ ((maxpool2d_output_shape_call s7).2 = s7
      ∧ (maxpool2d_output_shape_call ((maxpool2d_output_shape_call s7).2)).1
          = (maxpool2d_output_shape_call s7).1) :=
  ⟨⟨rfl, rfl⟩, ⟨rfl, rfl⟩, ⟨rfl, rfl⟩, ⟨rfl, rfl⟩, ⟨rfl, rfl⟩, ⟨rfl, rfl⟩, ⟨rfl, rfl⟩⟩

/-- Claim C10: `BatchNormalization._backward_pass` reads the local
variable `trainable` that is assigned only under `if self.trainable:`,
so with `trainable = False` the call fails with UnboundLocalError
(modelled `none`) and declares nothing; a backward node is declared only
when `trainable` is true. -/
theorem c10_batchnorm_backward_unbound (s : BatchNormState)
    (accum_grad : NodeHandle) (input_layer : String) (fresh : NodeHandle) :
    (s.trainable = false →
      batchnorm_backward_pass s accum_grad input_layer fresh = none)
    ∧ (s.trainable = true →
      (batchnorm_backward_pass s accum_grad input_layer fresh).isSome = true) := by
  cases h : s.trainable
  · simp [batchnorm_backward_pass, h]
  · simp [batchnorm_backward_pass, h]

/-- Claim C10, witness: a concrete frozen BatchNormalization layer fails
in `_backward_pass`. -/
theorem c10_witness :
    batchnorm_backward_pass
      { momentum := 99/100, eps := 1/100, trainable := false,
        forward_pass := some 1, backward_pass := none, input_shape := [3],
        optimizer := [] } 5 "False" 9 = none :=
  (c10_batchnorm_backward_unbound
    { momentum := 99/100, eps := 1/100, trainable := false,
      forward_pass := some 1, backward_pass := none, input_shape := [3],
      optimizer := [] } 5 "False" 9).1 rfl
